import Mathlib

/-!
Verification of the ROSA classic cluster resource of terraform-provider-ocm.

The development shallowly embeds the provider's cluster lifecycle code
(src/unnamed/part_000): the forward field mapper `createClassicClusterObject`,
the inverse mapper `populateRosaClassicClusterState`, the KMS key-ARN pattern
`kmsArnRE`, the version gate `checkSupportedVersion`, the trust bootstrap
resolver `getThumbprint` with `sha1Hash`, the deletion polling of `Delete`,
and the request phase of `Update`.

Terraform plugin-framework tri-state values (`types.String`, `types.Bool`,
`types.Int64`, `types.List`, `types.Map`) are embedded as structures carrying
the `Unknown` and `Null` flags next to the payload value.  Go maps are
embedded as association lists: ranging over a map presents a sequence of
entries, which is what the translated loops consume.  List elements
(`[]attr.Value` holding `types.String`) are embedded by their string value,
which is the only part the translated code reads or writes.
-/

/-- Tri-state string value: terraform-plugin-framework `types.String`
(fields Unknown, Null, Value; the Go zero value is present-empty). -/
structure TFString where
  Unknown : Bool := false
  Null : Bool := false
  Value : String := ""
deriving DecidableEq, Repr

/-- Tri-state boolean value: terraform-plugin-framework `types.Bool`. -/
structure TFBool where
  Unknown : Bool := false
  Null : Bool := false
  Value : Bool := false
deriving DecidableEq, Repr

/-- Tri-state integer value: terraform-plugin-framework `types.Int64`.
Go int64 arithmetic never overflows in the translated code (values are
only copied), so the value is carried as `Int`. -/
structure TFInt where
  Unknown : Bool := false
  Null : Bool := false
  Value : Int := 0
deriving DecidableEq, Repr

/-- Tri-state list of strings: terraform-plugin-framework `types.List` with
string elements (the code reads `e.(types.String).Value` of each element). -/
structure TFStringList where
  Unknown : Bool := false
  Null : Bool := false
  Elems : List String := []
deriving DecidableEq, Repr

/-- Tri-state string-to-string map: terraform-plugin-framework `types.Map`
with string elements, embedded as the association list of entries that
ranging over the Go map presents. -/
structure TFMap where
  Unknown : Bool := false
  Null : Bool := false
  Elems : List (String × String) := []
deriving DecidableEq, Repr

/-- A tri-state field is present when it is neither unknown nor null
(the `!x.Unknown && !x.Null` guards of the Go code). -/
def TFString.present (x : TFString) : Bool := !x.Unknown && !x.Null

/-- Presence of a tri-state boolean. -/
def TFBool.present (x : TFBool) : Bool := !x.Unknown && !x.Null

/-- Presence of a tri-state integer. -/
def TFInt.present (x : TFInt) : Bool := !x.Unknown && !x.Null

/-- Presence of a tri-state string list. -/
def TFStringList.present (x : TFStringList) : Bool := !x.Unknown && !x.Null

/-- Presence of a tri-state map. -/
def TFMap.present (x : TFMap) : Bool := !x.Unknown && !x.Null

/-! ## State model

`ClusterRosaClassicState` and its nested `Sts` and `Proxy` blocks.  The Go
struct declarations are not part of the staged sources; the fields and their
tri-state types are reconstructed from every read and write in
src/unnamed/part_000 and from the resource schema (`GetSchema`), following
the data model of the spec (tri-state optional fields, nested trust-role and
proxy blocks held by pointer, hence `Option` here). -/

/-- Modelled from the spec: instance IAM role pair of the trust-role block
(master/controller and worker role ARNs); the Go struct declaration is not in
the staged sources, its two fields are used at src/unnamed/part_000 lines
520-521 and 1076-1081. -/
structure InstanceIAMRoles where
  MasterRoleARN : TFString := {}
  WorkerRoleARN : TFString := {}
deriving DecidableEq, Repr

/-- Modelled from the spec: the trust-role (STS) block of the state record;
the Go struct declaration is not in the staged sources, its fields are used
at src/unnamed/part_000 lines 515-532, 606-626 and 1055-1104. -/
structure Sts where
  OIDCEndpointURL : TFString := {}
  OIDCPrivateKeySecretArn : TFString := {}
  Thumbprint : TFString := {}
  RoleARN : TFString := {}
  SupportRoleArn : TFString := {}
  InstanceIAMRoles : InstanceIAMRoles := {}
  OperatorRolePrefix : TFString := {}
deriving DecidableEq, Repr

/-- Modelled from the spec: the proxy block of the state record; the Go
struct declaration is not in the staged sources, its fields are used at
src/unnamed/part_000 lines 592-600 and 1116-1131. -/
structure Proxy where
  HttpProxy : TFString := {}
  HttpsProxy : TFString := {}
  NoProxy : TFString := {}
  AdditionalTrustBundle : TFString := {}
deriving DecidableEq, Repr

/-- Modelled from the spec: the DesiredState / state record
`ClusterRosaClassicState`.  The Go struct declaration is not in the staged
sources; every field below is read or written by src/unnamed/part_000 and
declared in the resource schema.  `Sts` and `Proxy` are pointers in Go,
embedded as `Option` (`none` is the nil pointer). -/
structure ClusterRosaClassicState where
  ID : TFString := {}
  ExternalID : TFString := {}
  Name : TFString := {}
  CloudRegion : TFString := {}
  Sts : Option Sts := none
  MultiAZ : TFBool := {}
  DisableWorkloadMonitoring : TFBool := {}
  DisableSCPChecks : TFBool := {}
  Properties : TFMap := {}
  Tags : TFMap := {}
  CCSEnabled : TFBool := {}
  EtcdEncryption : TFBool := {}
  AutoScalingEnabled : TFBool := {}
  MinReplicas : TFInt := {}
  MaxReplicas : TFInt := {}
  APIURL : TFString := {}
  ConsoleURL : TFString := {}
  Replicas : TFInt := {}
  ComputeMachineType : TFString := {}
  ComputeLabels : TFMap := {}
  AWSAccountID : TFString := {}
  AWSSubnetIDs : TFStringList := {}
  KMSKeyArn : TFString := {}
  FIPS : TFBool := {}
  AWSPrivateLink : TFBool := {}
  AvailabilityZones : TFStringList := {}
  MachineCIDR : TFString := {}
  Proxy : Option Proxy := none
  ServiceCIDR : TFString := {}
  PodCIDR : TFString := {}
  HostPrefix : TFInt := {}
  Version : TFString := {}
  DisableWaitingInDestroy : TFBool := {}
  DestroyTimeout : TFInt := {}
  State : TFString := {}
deriving DecidableEq, Repr

/-! ## Wire payload model (cmv1 objects)

The ocm-sdk-go `cmv1` builders track which attributes were set; an attribute
never set is absent from the payload.  They are embedded as structures of
`Option` fields (`none` is "attribute not sent"); `Empty()` of a builder is
"every field is `none`"; the zero-value getters (`object.Name()`, ...) are
`Option.getD` with the Go zero value, and the `GetX` ok-flag getters are the
`Option` itself. -/

/-- cmv1 MachinePoolAutoscaling payload. -/
structure MachinePoolAutoscaling where
  maxReplicas : Option Int := none
  minReplicas : Option Int := none
deriving DecidableEq, Repr

/-- `Empty()` of the MachinePoolAutoscaling builder. -/
def MachinePoolAutoscaling.isEmpty (a : MachinePoolAutoscaling) : Bool :=
  a.maxReplicas.isNone && a.minReplicas.isNone

/-- cmv1 ClusterNodes payload. -/
structure ClusterNodes where
  compute : Option Int := none
  computeMachineType : Option String := none
  computeLabels : Option (List (String × String)) := none
  availabilityZones : Option (List String) := none
  autoscaleCompute : Option MachinePoolAutoscaling := none
deriving DecidableEq, Repr

/-- `Empty()` of the ClusterNodes builder. -/
def ClusterNodes.isEmpty (n : ClusterNodes) : Bool :=
  n.compute.isNone && n.computeMachineType.isNone && n.computeLabels.isNone &&
    n.availabilityZones.isNone && n.autoscaleCompute.isNone

/-- cmv1 CCS payload. -/
structure CCS where
  enabled : Option Bool := none
  disableSCPChecks : Option Bool := none
deriving DecidableEq, Repr

/-- cmv1 InstanceIAMRoles payload. -/
structure InstanceIAMRolesPayload where
  masterRoleARN : Option String := none
  workerRoleARN : Option String := none
deriving DecidableEq, Repr

/-- cmv1 STS payload. -/
structure STSPayload where
  roleARN : Option String := none
  supportRoleARN : Option String := none
  instanceIAMRoles : Option InstanceIAMRolesPayload := none
  oidcEndpointURL : Option String := none
  oidcPrivateKeySecretArn : Option String := none
  operatorRolePrefix : Option String := none
deriving DecidableEq, Repr

/-- cmv1 AWS payload. -/
structure AWSPayload where
  tags : Option (List (String × String)) := none
  kmsKeyArn : Option String := none
  accountID : Option String := none
  privateLink : Option Bool := none
  sts : Option STSPayload := none
  subnetIDs : Option (List String) := none
deriving DecidableEq, Repr

/-- `Empty()` of the AWS builder. -/
def AWSPayload.isEmpty (a : AWSPayload) : Bool :=
  a.tags.isNone && a.kmsKeyArn.isNone && a.accountID.isNone &&
    a.privateLink.isNone && a.sts.isNone && a.subnetIDs.isNone

/-- cmv1 Network payload. -/
structure NetworkPayload where
  machineCIDR : Option String := none
  serviceCIDR : Option String := none
  podCIDR : Option String := none
  hostPrefix : Option Int := none
deriving DecidableEq, Repr

/-- `Empty()` of the Network builder. -/
def NetworkPayload.isEmpty (n : NetworkPayload) : Bool :=
  n.machineCIDR.isNone && n.serviceCIDR.isNone && n.podCIDR.isNone &&
    n.hostPrefix.isNone

/-- cmv1 ClusterAPI payload (`Listening` mode and the server-assigned URL). -/
structure ClusterAPIPayload where
  listening : Option String := none
  url : Option String := none
deriving DecidableEq, Repr

/-- cmv1 Proxy payload. -/
structure ProxyPayload where
  httpProxy : Option String := none
  httpsProxy : Option String := none
deriving DecidableEq, Repr

/-- cmv1 Cluster payload / remote snapshot.  Server-assigned attributes
(id, api url, console url, state) are set only by the server. -/
structure Cluster where
  id : Option String := none
  externalID : Option String := none
  name : Option String := none
  region : Option String := none
  cloudProvider : Option String := none
  product : Option String := none
  multiAZ : Option Bool := none
  properties : Option (List (String × String)) := none
  etcdEncryption : Option Bool := none
  disableUserWorkloadMonitoring : Option Bool := none
  nodes : Option ClusterNodes := none
  ccs : Option CCS := none
  aws : Option AWSPayload := none
  api : Option ClusterAPIPayload := none
  fips : Option Bool := none
  network : Option NetworkPayload := none
  version : Option String := none
  proxy : Option ProxyPayload := none
  additionalTrustBundle : Option String := none
  consoleURL : Option String := none
  state : Option String := none
deriving DecidableEq, Repr

/-! ## String helpers

Go string operations used by the translated code, carried out on the
character list of the string so that every definition is structural and
kernel-evaluable. -/

/-- Go `strings.HasPrefix`. -/
def goHasPrefix (s pre : String) : Bool := pre.data.isPrefixOf s.data

/-- Go `strings.TrimPrefix`: removes `pre` from the front of `s` when it is
a prefix, otherwise returns `s` unchanged. -/
def goTrimPrefix (s pre : String) : String :=
  if pre.data.isPrefixOf s.data then ⟨s.data.drop pre.data.length⟩ else s

/-- One step of Go `strings.Replace(s, old, "", 1)`: removes the first
occurrence of `pat` from the list, scanning left to right. -/
def removeFirstSub (pat : List Char) : List Char → List Char
  | [] => []
  | c :: rest =>
    if pat.isPrefixOf (c :: rest) then (c :: rest).drop pat.length
    else c :: removeFirstSub pat rest

/-- Go `strings.Replace(s, pat, "", 1)`. -/
def goRemoveFirst (s pat : String) : String := ⟨removeFirstSub pat.data s.data⟩

/-- Splits a character list on a separator character (the separator is not
kept; `n` separators yield `n + 1` pieces). -/
def splitOnCharList (sep : Char) : List Char → List (List Char)
  | [] => [[]]
  | c :: rest =>
    let r := splitOnCharList sep rest
    if c = sep then [] :: r
    else
      match r with
      | h :: t => (c :: h) :: t
      | [] => [[c]]

/-! ## Constants of the provider -/

/-- Cloud provider identifier constant. -/
def awsCloudProvider : String := "aws"

/-- Product identifier constant. -/
def rosaProduct : String := "rosa"

/-- Minimum supported cluster version. -/
def MinVersion : String := "4.10"

/-- Headline of every forward-mapping validation error. -/
def errHeadline : String := "Can't build cluster"

/-- The source text of the `kmsArnRE` regular expression (printed into the
validation error message). -/
def kmsArnPattern : String :=
  "^arn:aws[\\w-]*:kms:[\\w-]+:\\d{12}:key\\/mrk-[0-9a-f]{32}$|[0-9a-f]{8}-[0-9a-f]{4}-[1-5][0-9a-f]{3}-[89ab][0-9a-f]{3}-[0-9a-f]{12}$"

/-! ## kmsArnRE

Decision procedure for Go `kmsArnRE.MatchString`.  The pattern is an
alternation.  The first alternative is anchored at both ends and its
separators (the colons and the slash) do not occur in any of its character
classes, so a match is exactly a split into six colon-separated segments of
the required shapes.  The second alternative is anchored only at the end and
has fixed width 36, so Go's unanchored search matches exactly when the last
36 characters have the UUID shape. -/

/-- Character class `[\w-]` of Go regexp (`\w` is `[0-9A-Za-z_]`). -/
def isWordDash (c : Char) : Bool :=
  c.isAlpha || c.isDigit || c = '_' || c = '-'

/-- Character class `[0-9a-f]`. -/
def isHexLower (c : Char) : Bool :=
  c.isDigit || ('a' ≤ c && c ≤ 'f')

/-- The 36-character UUID shape
`[0-9a-f]{8}-[0-9a-f]{4}-[1-5][0-9a-f]{3}-[89ab][0-9a-f]{3}-[0-9a-f]{12}`. -/
def uuid36 (l : List Char) : Bool :=
  l.length = 36 &&
  (l.take 8).all isHexLower && l.getD 8 ' ' = '-' &&
  ((l.drop 9).take 4).all isHexLower && l.getD 13 ' ' = '-' &&
  ('1' ≤ l.getD 14 ' ' && l.getD 14 ' ' ≤ '5') &&
  ((l.drop 15).take 3).all isHexLower && l.getD 18 ' ' = '-' &&
  (l.getD 19 ' ' = '8' || l.getD 19 ' ' = '9' || l.getD 19 ' ' = 'a' || l.getD 19 ' ' = 'b') &&
  ((l.drop 20).take 3).all isHexLower && l.getD 23 ' ' = '-' &&
  ((l.drop 24).take 12).all isHexLower

/-- The anchored first alternative
`^arn:aws[\w-]*:kms:[\w-]+:\d{12}:key\/mrk-[0-9a-f]{32}$`. -/
def kmsArnAlt1 (l : List Char) : Bool :=
  match splitOnCharList ':' l with
  | [seg0, seg1, seg2, seg3, seg4, seg5] =>
    seg0 = "arn".data &&
    ("aws".data.isPrefixOf seg1 && (seg1.drop 3).all isWordDash) &&
    seg2 = "kms".data &&
    (!seg3.isEmpty && seg3.all isWordDash) &&
    (seg4.length = 12 && seg4.all Char.isDigit) &&
    ("key/mrk-".data.isPrefixOf seg5 && (seg5.drop 8).length = 32 &&
      (seg5.drop 8).all isHexLower)
  | _ => false

/-- Go `kmsArnRE.MatchString`. -/
def kmsArnREMatch (s : String) : Bool :=
  kmsArnAlt1 s.data ||
    (decide (36 ≤ s.data.length) && uuid36 (s.data.drop (s.data.length - 36)))

/-! ## Version gate

`checkSupportedVersion` delegates parsing and comparison to the
hashicorp/go-version dependency.  The dependency is embedded by its
documented semantics restricted to what the provider feeds it: an optional
leading `v`, a dotted sequence of decimal segments, an optional pre-release
part introduced by the first `-`, an optional build-metadata part after `+`
(ignored for ordering); ordering compares the numeric segments
lexicographically with the shorter side padded by zeros, and at equal
segments a pre-release sorts below a release. -/

/-- A parsed semantic version: numeric segments and the pre-release text. -/
structure SemVer where
  segments : List Nat
  prerelease : String
deriving DecidableEq, Repr

/-- Parses one dotted numeric segment list: every piece nonempty and all
digits. -/
def parseSegments (l : List Char) : Option (List Nat) :=
  let pieces := splitOnCharList '.' l
  if pieces.all fun p => !p.isEmpty && p.all Char.isDigit then
    some (pieces.map fun p => p.foldl (fun n c => n * 10 + (c.toNat - 48)) 0)
  else none

/-- Splits a character list at the first dash: the part before it, and the
part after it when a dash exists. -/
def splitFirstDash : List Char → List Char × Option (List Char)
  | [] => ([], none)
  | c :: rest =>
    if c = '-' then ([], some rest)
    else
      let (a, b) := splitFirstDash rest
      (c :: a, b)

/-- hashicorp/go-version `NewVersion` (see the module comment above for the
modelled subset). -/
def semverNewVersion (s : String) : Option SemVer :=
  let l := if "v".data.isPrefixOf s.data then s.data.drop 1 else s.data
  let noBuild := (splitOnCharList '+' l).headD []
  let (core, pre) := splitFirstDash noBuild
  match parseSegments core with
  | none => none
  | some segs => some { segments := segs, prerelease := ⟨pre.getD []⟩ }

/-- Strict lexicographic greater-than of zero-padded segment lists (an
exhausted left side, padded with zeros, can never exceed the right side). -/
def segmentsGT : List Nat → List Nat → Bool
  | [], _ => false
  | a :: as', [] => if a = 0 then segmentsGT as' [] else true
  | a :: as', b :: bs => if a = b then segmentsGT as' bs else a > b

/-- hashicorp/go-version `GreaterThanOrEqual`: segment order first; at equal
segments a pre-release sorts below a release, and two pre-releases compare
as strings. -/
def semverGE (a b : SemVer) : Bool :=
  if segmentsGT a.segments b.segments then true
  else if segmentsGT b.segments a.segments then false
  else if a.prerelease = "" then true
  else if b.prerelease = "" then false
  else decide (b.prerelease ≤ a.prerelease)

/-- `checkSupportedVersion`: strips the first occurrence of `openshift-v`,
parses both sides as semantic versions and compares; a parse failure is an
error, not a false result (the error text models go-version's
`Malformed version` message). -/
def checkSupportedVersion (clusterVersion : String) : Except String Bool :=
  let rawID := goRemoveFirst clusterVersion "openshift-v"
  match semverNewVersion rawID with
  | none => .error ("Malformed version: " ++ rawID)
  | some v1 =>
    match semverNewVersion MinVersion with
    | none => .error ("Malformed version: " ++ MinVersion)
    | some v2 => .ok (semverGE v1 v2)

/-! ## Forward field mapper: createClassicClusterObject

The Go function builds the payload in source order and returns early on the
first validation failure: duplicate tag key, malformed KMS key ARN, bad BYO
OIDC configuration, then the version gate.  The embedding factors each
failable step into its own function and assembles the payload from the
checked results; the error order is the source order. -/

/-- Description of the duplicate-tag-key validation error. -/
def dupTagErrDescription (k : String) : String :=
  "Invalid tags, user tag keys must be unique, duplicate key '" ++ k ++ "' found"

/-- Description of the malformed KMS key ARN validation error (the message
prints the pattern of `kmsArnRE`). -/
def kmsErrDescription : String :=
  "Expected a valid value for kms-key-arn matching " ++ kmsArnPattern

/-- The tag-copy loop of `createClassicClusterObject` (lines 465-478): copies
entries into the output map, failing on the first key already present. -/
def buildTags (acc : List (String × String)) :
    List (String × String) → Except String (List (String × String))
  | [] => .ok acc
  | (k, v) :: rest =>
    if (acc.map Prod.fst).contains k then
      .error (errHeadline ++ "\n" ++ dupTagErrDescription k)
    else buildTags (acc ++ [(k, v)]) rest

/-- Tag handling of the forward mapper: when the tag map is present, copy it
checking key uniqueness; absent tags leave the AWS payload field unset. -/
def checkTags (state : ClusterRosaClassicState) :
    Except String (Option (List (String × String))) :=
  if state.Tags.present then
    match buildTags [] state.Tags.Elems with
    | .error e => .error e
    | .ok tags => .ok (some tags)
  else .ok none

/-- KMS key handling of the forward mapper (lines 483-496): a present,
non-empty key must match `kmsArnRE`. -/
def checkKms (state : ClusterRosaClassicState) : Except String (Option String) :=
  if state.KMSKeyArn.present && state.KMSKeyArn.Value ≠ "" then
    if kmsArnREMatch state.KMSKeyArn.Value then .ok (some state.KMSKeyArn.Value)
    else .error (errHeadline ++ "\n" ++ kmsErrDescription)
  else .ok none

/-- `isByoOidcSet`: the BYO OIDC configuration counts as set when either the
endpoint URL or the private-key secret ARN is present and non-empty. -/
def isByoOidcSet (sts : Sts) : Bool :=
  (sts.OIDCEndpointURL.present && sts.OIDCEndpointURL.Value ≠ "") ||
    (sts.OIDCPrivateKeySecretArn.present && sts.OIDCPrivateKeySecretArn.Value ≠ "")

/-- `checkAndSetByoOidcAttributes`: when BYO OIDC is set, both fields must be
present and non-empty; the endpoint URL is sent with `https://` prepended
(unconditionally) and the secret ARN is sent as is. -/
def checkAndSetByoOidcAttributes (sts : Sts) (b : STSPayload) :
    Except String STSPayload :=
  if isByoOidcSet sts then
    if sts.OIDCEndpointURL.Unknown || sts.OIDCEndpointURL.Null ||
        sts.OIDCEndpointURL.Value = "" then
      .error (errHeadline ++ "\n" ++ "When using BYO OIDC Endpoint URL cannot be empty")
    else if sts.OIDCPrivateKeySecretArn.Unknown || sts.OIDCPrivateKeySecretArn.Null ||
        sts.OIDCPrivateKeySecretArn.Value = "" then
      .error (errHeadline ++ "\n" ++ "When using BYO OIDC Secret ARN cannot be empty")
    else
      .ok { b with
            oidcEndpointURL := some ("https://" ++ sts.OIDCEndpointURL.Value),
            oidcPrivateKeySecretArn := some sts.OIDCPrivateKeySecretArn.Value }
  else .ok b

/-- STS block of the forward mapper (lines 515-532): role ARNs and the
instance IAM role pair are always sent from the block's values, the BYO OIDC
fields go through `checkAndSetByoOidcAttributes`, and the operator role
prefix is set afterwards. -/
def mkStsPayload (state : ClusterRosaClassicState) :
    Except String (Option STSPayload) :=
  match state.Sts with
  | none => .ok none
  | some sts =>
    let base : STSPayload :=
      { roleARN := some sts.RoleARN.Value,
        supportRoleARN := some sts.SupportRoleArn.Value,
        instanceIAMRoles := some
          { masterRoleARN := some sts.InstanceIAMRoles.MasterRoleARN.Value,
            workerRoleARN := some sts.InstanceIAMRoles.WorkerRoleARN.Value } }
    match checkAndSetByoOidcAttributes sts base with
    | .error e => .error e
    | .ok withByo =>
      .ok (some { withByo with operatorRolePrefix := some sts.OperatorRolePrefix.Value })

/-- Version handling of the forward mapper (lines 561-590): a present version
goes through the version gate; a gate error and an unsupported version are
both fatal (the Go code formats both messages with the same verb). -/
def checkVersion (state : ClusterRosaClassicState) : Except String (Option String) :=
  if state.Version.present then
    match checkSupportedVersion state.Version.Value with
    | .error e =>
      .error (errHeadline ++ "\n" ++ "Can't check if cluster version is supported '" ++
        state.Version.Value ++ "': " ++ e)
    | .ok true => .ok (some state.Version.Value)
    | .ok false =>
      .error (errHeadline ++ "\n" ++ "Can't check if cluster version is supported '" ++
        state.Version.Value ++ "': <nil>")
  else .ok none

/-- Node-pool block of the forward mapper (lines 410-451). -/
def mkNodes (state : ClusterRosaClassicState) : ClusterNodes :=
  { compute := if state.Replicas.present then some state.Replicas.Value else none,
    computeMachineType :=
      if state.ComputeMachineType.present then some state.ComputeMachineType.Value
      else none,
    computeLabels :=
      if state.ComputeLabels.present then some state.ComputeLabels.Elems else none,
    availabilityZones :=
      if state.AvailabilityZones.present then some state.AvailabilityZones.Elems
      else none,
    autoscaleCompute :=
      if state.AutoScalingEnabled.present && state.AutoScalingEnabled.Value then
        let autoscaling : MachinePoolAutoscaling :=
          { maxReplicas :=
              if state.MaxReplicas.present then some state.MaxReplicas.Value else none,
            minReplicas :=
              if state.MinReplicas.present then some state.MinReplicas.Value else none }
        if autoscaling.isEmpty then none else some autoscaling
      else none }

/-- CCS block of the forward mapper (lines 454-460): always enabled, with the
SCP-check opt-out only when requested. -/
def mkCCS (state : ClusterRosaClassicState) : CCS :=
  { enabled := some true,
    disableSCPChecks :=
      if state.DisableSCPChecks.present && state.DisableSCPChecks.Value then some true
      else none }

/-- AWS block of the forward mapper (lines 462-544) from the checked tag map,
KMS key and STS payload. -/
def mkAWS (state : ClusterRosaClassicState) (tagsOpt : Option (List (String × String)))
    (kmsOpt : Option String) (stsOpt : Option STSPayload) : AWSPayload :=
  { tags := tagsOpt,
    kmsKeyArn := kmsOpt,
    accountID := if state.AWSAccountID.present then some state.AWSAccountID.Value else none,
    privateLink := if state.AWSPrivateLink.present then some state.AWSPrivateLink.Value else none,
    sts := stsOpt,
    subnetIDs := if state.AWSSubnetIDs.present then some state.AWSSubnetIDs.Elems else none }

/-- Network block of the forward mapper (lines 545-560). -/
def mkNetwork (state : ClusterRosaClassicState) : NetworkPayload :=
  { machineCIDR := if state.MachineCIDR.present then some state.MachineCIDR.Value else none,
    serviceCIDR := if state.ServiceCIDR.present then some state.ServiceCIDR.Value else none,
    podCIDR := if state.PodCIDR.present then some state.PodCIDR.Value else none,
    hostPrefix := if state.HostPrefix.present then some state.HostPrefix.Value else none }

/-- Assembly of the cluster payload from the checked components, mirroring
the builder calls of lines 382-603: empty composite builders (nodes, aws,
network) are omitted, the API block is set exactly when the private-link
flag is present, FIPS is sent only when true, and the proxy block values are
always read from the block when it exists. -/
def assembleCluster (state : ClusterRosaClassicState)
    (tagsOpt : Option (List (String × String))) (kmsOpt : Option String)
    (stsOpt : Option STSPayload) (versionOpt : Option String) : Cluster :=
  let nodes := mkNodes state
  let aws := mkAWS state tagsOpt kmsOpt stsOpt
  let network := mkNetwork state
  { name := some state.Name.Value,
    cloudProvider := some awsCloudProvider,
    product := some rosaProduct,
    region := some state.CloudRegion.Value,
    multiAZ := if state.MultiAZ.present then some state.MultiAZ.Value else none,
    properties := if state.Properties.present then some state.Properties.Elems else none,
    etcdEncryption :=
      if state.EtcdEncryption.present then some state.EtcdEncryption.Value else none,
    externalID := if state.ExternalID.present then some state.ExternalID.Value else none,
    disableUserWorkloadMonitoring :=
      if state.DisableWorkloadMonitoring.present then
        some state.DisableWorkloadMonitoring.Value
      else none,
    nodes := if nodes.isEmpty then none else some nodes,
    ccs := some (mkCCS state),
    aws := if aws.isEmpty then none else some aws,
    api :=
      if state.AWSPrivateLink.present then
        some { listening := if state.AWSPrivateLink.Value then some "internal" else none }
      else none,
    fips := if state.FIPS.present && state.FIPS.Value then some true else none,
    network := if network.isEmpty then none else some network,
    version := versionOpt,
    proxy :=
      match state.Proxy with
      | some p => some { httpProxy := some p.HttpProxy.Value,
                         httpsProxy := some p.HttpsProxy.Value }
      | none => none,
    additionalTrustBundle :=
      match state.Proxy with
      | some p =>
        if p.AdditionalTrustBundle.present then some p.AdditionalTrustBundle.Value
        else none
      | none => none }

/-- `createClassicClusterObject`: the forward field mapper.  Fails with the
first validation error in source order (duplicate tag key, malformed KMS
key, BYO OIDC consistency, version gate), otherwise returns the assembled
payload. -/
def createClassicClusterObject (state : ClusterRosaClassicState) :
    Except String Cluster :=
  match checkTags state with
  | .error e => .error e
  | .ok tagsOpt =>
    match checkKms state with
    | .error e => .error e
    | .ok kmsOpt =>
      match mkStsPayload state with
      | .error e => .error e
      | .ok stsOpt =>
        match checkVersion state with
        | .error e => .error e
        | .ok versionOpt =>
          .ok (assembleCluster state tagsOpt kmsOpt stsOpt versionOpt)

/-! ## SHA-1 and the trust bootstrap resolver

`sha1Hash` computes the SHA-1 of a byte array and hex-encodes it.  SHA-1 is
implemented here over `List Nat` bytes with all word arithmetic carried out
on `Nat` modulo `2 ^ 32`; every recursion is structural so the kernel can
evaluate the function on concrete inputs. -/

/-- Truncation to a 32-bit word. -/
def w32 (x : Nat) : Nat := x % 4294967296

/-- 32-bit left rotation. -/
def rotl32 (n x : Nat) : Nat :=
  w32 (x <<< n) ||| (x >>> (32 - n))

/-- 32-bit bitwise complement. -/
def not32 (x : Nat) : Nat := 4294967295 - w32 x

/-- Splits a byte list into 64-byte chunks (the input length is always a
multiple of 64 after padding). -/
def toChunks64 (acc : List Nat) : List Nat → List (List Nat)
  | [] => if acc.isEmpty then [] else [acc]
  | b :: rest =>
    if acc.length = 63 then (acc ++ [b]) :: toChunks64 [] rest
    else toChunks64 (acc ++ [b]) rest

/-- Big-endian bytes of a 64-bit length value. -/
def lenBytes64 (n : Nat) : List Nat :=
  [n >>> 56 % 256, n >>> 48 % 256, n >>> 40 % 256, n >>> 32 % 256,
   n >>> 24 % 256, n >>> 16 % 256, n >>> 8 % 256, n % 256]

/-- SHA-1 message padding: a `0x80` byte, zeros to 56 mod 64, then the bit
length as a 64-bit big-endian value. -/
def sha1Pad (msg : List Nat) : List Nat :=
  let ml := msg.length * 8
  let padZeros := (64 + 56 - (msg.length + 1) % 64) % 64
  msg ++ [128] ++ List.replicate padZeros 0 ++ lenBytes64 ml

/-- Big-endian 32-bit words of a 64-byte chunk. -/
def chunkWords : List Nat → List Nat
  | b0 :: b1 :: b2 :: b3 :: rest =>
    (b0 <<< 24 ||| b1 <<< 16 ||| b2 <<< 8 ||| b3) :: chunkWords rest
  | _ => []

/-- Extends the 16 message words to 80 by the SHA-1 word recurrence, adding
`n` further words. -/
def extendWords (ws : List Nat) : Nat → List Nat
  | 0 => ws
  | n + 1 =>
    let prev := extendWords ws n
    let i := prev.length
    prev ++ [rotl32 1 (prev.getD (i - 3) 0 ^^^ prev.getD (i - 8) 0 ^^^
      prev.getD (i - 14) 0 ^^^ prev.getD (i - 16) 0)]

/-- The round function and constant of SHA-1 round `i`. -/
def sha1FK (i b c d : Nat) : Nat × Nat :=
  if i < 20 then ((b &&& c) ||| (not32 b &&& d), 1518500249)
  else if i < 40 then (b ^^^ c ^^^ d, 1859775393)
  else if i < 60 then ((b &&& c) ||| (b &&& d) ||| (c &&& d), 2400959708)
  else (b ^^^ c ^^^ d, 3395469782)

/-- One SHA-1 compression over a 64-byte chunk. -/
def sha1Compress (h : Nat × Nat × Nat × Nat × Nat) (chunk : List Nat) :
    Nat × Nat × Nat × Nat × Nat :=
  let ws := extendWords (chunkWords chunk) 64
  let (h0, h1, h2, h3, h4) := h
  let r := (List.range 80).foldl
    (fun (s : Nat × Nat × Nat × Nat × Nat) i =>
      let (a, b, c, d, e) := s
      let (f, k) := sha1FK i b c d
      let temp := w32 (rotl32 5 a + f + e + k + ws.getD i 0)
      (temp, a, rotl32 30 b, c, d))
    (h0, h1, h2, h3, h4)
  let (a, b, c, d, e) := r
  (w32 (h0 + a), w32 (h1 + b), w32 (h2 + c), w32 (h3 + d), w32 (h4 + e))

/-- Big-endian bytes of a 32-bit word. -/
def wordBytes (w : Nat) : List Nat :=
  [w >>> 24 % 256, w >>> 16 % 256, w >>> 8 % 256, w % 256]

/-- SHA-1 digest (20 bytes) of a byte list. -/
def sha1 (msg : List Nat) : List Nat :=
  let h := (toChunks64 [] (sha1Pad msg)).foldl sha1Compress
    (1732584193, 4023233417, 2562383102, 271733878, 3285377520)
  wordBytes h.1 ++ wordBytes h.2.1 ++ wordBytes h.2.2.1 ++
    wordBytes h.2.2.2.1 ++ wordBytes h.2.2.2.2

/-- A nibble as a lowercase hexadecimal character. -/
def hexChar (n : Nat) : Char :=
  if n < 10 then Char.ofNat (48 + n) else Char.ofNat (87 + n)

/-- Lowercase hexadecimal encoding of a byte list (`hex.EncodeToString`). -/
def hexEncode (bytes : List Nat) : String :=
  ⟨bytes.flatMap fun b => [hexChar (b >>> 4 % 16), hexChar (b % 16)]⟩

/-- `sha1Hash`: SHA-1 of the byte array, hex-encoded.  The Go function
returns an error only when `hasher.Write` fails, which cannot happen for the
in-memory hasher, so the embedding returns the string directly. -/
def sha1Hash (data : List Nat) : String := hexEncode (sha1 data)

/-- An X.509 certificate as `getThumbprint` consumes it: the CA flag, the
raw DER issuer and subject, and the raw DER encoding. -/
structure X509Cert where
  isCA : Bool := false
  rawIssuer : List Nat := []
  rawSubject : List Nat := []
  raw : List Nat := []
deriving DecidableEq, Repr

/-- The anchor-selection predicate of `getThumbprint`: a CA certificate
whose raw issuer equals its raw subject (self-signed). -/
def isSelfSignedCA (cert : X509Cert) : Bool :=
  cert.isCA && cert.rawIssuer = cert.rawSubject

/-- The chain-processing core of `getThumbprint` (lines 1220-1237): hash the
first self-signed CA of the peer chain, or fall back to the last certificate;
an empty chain indexes out of range, which the deferred recover turns into a
regular error. -/
def getThumbprintFromChain (certChain : List X509Cert) : Except String String :=
  match certChain.find? isSelfSignedCA with
  | some cert => .ok (sha1Hash cert.raw)
  | none =>
    match certChain.getLast? with
    | some cert => .ok (sha1Hash cert.raw)
    | none => .error "recovering from: \"runtime error: index out of range [-1]\""

/-- The host part of `url.ParseRequestURI`, restricted to what the resolver
needs: the URL must be absolute (have a `://`), and the host is what stands
between the scheme marker and the next slash.  The empty string and a URL
without a scheme are parse errors. -/
def parseRequestURIHost (s : String) : Option String :=
  match splitOnCharList ':' s.data with
  | scheme :: rest =>
    if scheme.isEmpty || rest.isEmpty then none
    else
      let after := s.data.drop (scheme.length + 1)
      if "//".data.isPrefixOf after then
        some ⟨(after.drop 2).takeWhile (· ≠ '/')⟩
      else none
  | [] => none

/-- The HTTP client of the resolver, abstracted to the peer certificate
chain the TLS handshake of a `Get` on the given URL yields (`none` is a
network failure). -/
def HttpClient := String → Option (List X509Cert)

/-- `getThumbprint`: parse the issuer URL, connect to its host on port 443,
and hash the trust anchor of the peer chain. -/
def getThumbprint (oidcEndpointURL : String) (httpClient : HttpClient) :
    Except String String :=
  match parseRequestURIHost oidcEndpointURL with
  | none => .error ("parse \"" ++ oidcEndpointURL ++ "\": invalid URI for request")
  | some host =>
    match httpClient ("https://" ++ host ++ ":443") with
    | none => .error "connection failure"
    | some certChain => getThumbprintFromChain certChain

/-! ## Inverse field mapper: populateRosaClassicClusterState

The Go function copies the API object into the prior state record in place.
The embedding produces the updated record; a field the Go code does not
write keeps its prior value.  The Go function dereferences `state.Proxy`
without a nil check when the snapshot carries a proxy block or a trust
bundle (lines 1116-1131), unlike `state.Sts` which it allocates (line 1057);
that nil-pointer dereference is a runtime panic, embedded as `none` (the Go
function otherwise always returns a nil error). -/

/-- The STS block of the updated state (lines 1055-1104): the prior block is
allocated when nil, the endpoint URL is stored with one `https://` stripped,
the operator role prefix is copied only into a prior unknown/null field, and
the thumbprint is resolved with a soft failure to the empty string. -/
def populateSts (stsP : STSPayload) (prior : Sts) (httpClient : HttpClient) : Sts :=
  let oidcEndpointUrl := stsP.oidcEndpointURL.getD ""
  { prior with
    OIDCEndpointURL :=
      { Value :=
          if goHasPrefix oidcEndpointUrl "https://" then
            goTrimPrefix oidcEndpointUrl "https://"
          else oidcEndpointUrl },
    RoleARN := { Value := stsP.roleARN.getD "" },
    SupportRoleArn := { Value := stsP.supportRoleARN.getD "" },
    InstanceIAMRoles :=
      match stsP.instanceIAMRoles with
      | some r =>
        { MasterRoleARN := { Value := r.masterRoleARN.getD "" },
          WorkerRoleARN := { Value := r.workerRoleARN.getD "" } }
      | none => prior.InstanceIAMRoles,
    OperatorRolePrefix :=
      if prior.OperatorRolePrefix.Unknown || prior.OperatorRolePrefix.Null then
        match stsP.operatorRolePrefix with
        | some p => { Value := p }
        | none => prior.OperatorRolePrefix
      else prior.OperatorRolePrefix,
    Thumbprint :=
      match getThumbprint (stsP.oidcEndpointURL.getD "") httpClient with
      | .ok thumbprint => { Value := thumbprint }
      | .error _ => { Value := "" } }

/-- `populateRosaClassicClusterState`: the inverse field mapper.  `none` is
the nil-pointer panic on a snapshot with a proxy block or trust bundle while
the prior state has no proxy block. -/
def populateRosaClassicClusterState (object : Cluster)
    (state : ClusterRosaClassicState) (httpClient : HttpClient) :
    Option ClusterRosaClassicState :=
  if (object.proxy.isSome || object.additionalTrustBundle.isSome) &&
      state.Proxy.isNone then
    none
  else
    some
      { ID := { Value := object.id.getD "" },
        ExternalID := { Value := object.externalID.getD "" },
        Name := { Value := object.name.getD "" },
        CloudRegion := { Value := object.region.getD "" },
        MultiAZ := { Value := object.multiAZ.getD false },
        Properties := { Elems := object.properties.getD [] },
        APIURL := { Value := ((object.api.getD {}).url.getD "") },
        ConsoleURL := { Value := object.consoleURL.getD "" },
        Replicas := { Value := (object.nodes.getD {}).compute.getD 0 },
        ComputeMachineType :=
          { Value := (object.nodes.getD {}).computeMachineType.getD "" },
        ComputeLabels :=
          match (object.nodes.getD {}).computeLabels with
          | some labels => { Elems := labels }
          | none => state.ComputeLabels,
        DisableWorkloadMonitoring :=
          if object.disableUserWorkloadMonitoring = some true then { Value := true }
          else state.DisableWorkloadMonitoring,
        FIPS := if object.fips = some true then { Value := true } else state.FIPS,
        AutoScalingEnabled :=
          match (object.nodes.getD {}).autoscaleCompute with
          | some _ => { Value := true }
          | none => state.AutoScalingEnabled,
        MaxReplicas :=
          match (object.nodes.getD {}).autoscaleCompute with
          | some a =>
            match a.maxReplicas with
            | some m => { Value := m }
            | none => state.MaxReplicas
          | none => { state.MaxReplicas with Null := true },
        MinReplicas :=
          match (object.nodes.getD {}).autoscaleCompute with
          | some a =>
            match a.minReplicas with
            | some m => { Value := m }
            | none => state.MinReplicas
          | none => { state.MinReplicas with Null := true },
        AvailabilityZones :=
          match (object.nodes.getD {}).availabilityZones with
          | some azs => { state.AvailabilityZones with Elems := azs }
          | none => state.AvailabilityZones,
        CCSEnabled := { Value := (object.ccs.getD {}).enabled.getD false },
        DisableSCPChecks :=
          if (object.ccs.getD {}).disableSCPChecks = some true then { Value := true }
          else state.DisableSCPChecks,
        EtcdEncryption := { Value := object.etcdEncryption.getD false },
        AWSAccountID :=
          match (object.aws.getD {}).accountID with
          | some accountID => { Value := accountID }
          | none => state.AWSAccountID,
        AWSPrivateLink :=
          match (object.aws.getD {}).privateLink with
          | some privateLink => { Value := privateLink }
          | none => { Null := true },
        KMSKeyArn :=
          match (object.aws.getD {}).kmsKeyArn with
          | some kmsKeyArn => { Value := kmsKeyArn }
          | none => state.KMSKeyArn,
        Sts :=
          match (object.aws.getD {}).sts with
          | some stsP => some (populateSts stsP (state.Sts.getD {}) httpClient)
          | none => state.Sts,
        AWSSubnetIDs :=
          match (object.aws.getD {}).subnetIDs with
          | some subnetIds => { state.AWSSubnetIDs with Elems := subnetIds }
          | none => state.AWSSubnetIDs,
        Proxy :=
          match state.Proxy with
          | some prior =>
            some
              { prior with
                HttpProxy :=
                  match object.proxy with
                  | some p => { Value := p.httpProxy.getD "" }
                  | none => prior.HttpProxy,
                HttpsProxy :=
                  match object.proxy with
                  | some p => { Value := p.httpsProxy.getD "" }
                  | none => prior.HttpsProxy,
                AdditionalTrustBundle :=
                  match object.additionalTrustBundle with
                  | some trustBundle => { Value := trustBundle }
                  | none => prior.AdditionalTrustBundle }
          | none => none,
        MachineCIDR :=
          match (object.network.getD {}).machineCIDR with
          | some machineCIDR => { Value := machineCIDR }
          | none => { Null := true },
        ServiceCIDR :=
          match (object.network.getD {}).serviceCIDR with
          | some serviceCIDR => { Value := serviceCIDR }
          | none => { Null := true },
        PodCIDR :=
          match (object.network.getD {}).podCIDR with
          | some podCIDR => { Value := podCIDR }
          | none => { Null := true },
        HostPrefix :=
          match (object.network.getD {}).hostPrefix with
          | some hostPrefix => { Value := hostPrefix }
          | none => { Null := true },
        Version :=
          match object.version with
          | some version => { Value := version }
          | none => { Null := true },
        State := { Value := object.state.getD "" },
        Tags := state.Tags,
        DisableWaitingInDestroy := state.DisableWaitingInDestroy,
        DestroyTimeout := state.DestroyTimeout }

/-! ## Deletion polling (Delete, lines 822-878 and 1266-1300)

Time and the remote server are abstracted: each poll attempt is summarised
by the error the ocm-sdk `Poll().StartContext` call returns for it (`none`
for a nil error).  Dependency model: on a context-deadline expiry before the
404 status is reached, the SDK poll helper returns the context's error — a
`context.DeadlineExceeded` value, which is not an `*ocm_errors.Error` — so
the deadline case reaches `waitTillClusterIsNotFoundWithTimeout` as
`ctxDeadlineExceeded` below, never as an OCM error with status 404 and never
as a nil error. -/

/-- The error of one SDK call: a structured OCM error carrying an HTTP-like
status, the context-deadline error, or any other error value. -/
inductive SdkError where
  | ocmErr (status : Nat) (msg : String)
  | ctxDeadlineExceeded
  | other (msg : String)
deriving DecidableEq, Repr

/-- `waitTillClusterIsNotFoundWithTimeout` (lines 1280-1300) as a function of
the poll error: an OCM error with status 404 is the not-found success; any
other non-nil error is surfaced; a nil error is "still there, no error". -/
def waitTillClusterIsNotFoundWithTimeout (pollErr : Option SdkError) :
    Bool × Option SdkError :=
  match pollErr with
  | some (.ocmErr status msg) =>
    if status = 404 then (true, none) else (false, some (.ocmErr status msg))
  | some e => (false, some e)
  | none => (false, none)

/-- `retryClusterNotFoundWithTimeout` (lines 1266-1278): bounded retry around
the poll; `polls i` is the error of the `i`-th poll attempt.  The Go code
decrements `attempts` and retries while the result stays positive. -/
def retryClusterNotFoundWithTimeout (polls : Nat → Option SdkError) (idx attempts : Nat) :
    Bool × Option SdkError :=
  match attempts with
  | a + 2 =>
    let r := waitTillClusterIsNotFoundWithTimeout (polls idx)
    match r.2 with
    | none => (r.1, none)
    | some _ => retryClusterNotFoundWithTimeout polls (idx + 1) (a + 1)
  | _ =>
    let r := waitTillClusterIsNotFoundWithTimeout (polls idx)
    (r.1, r.2)

/-- Modelled from the spec: the default destroy timeout (60 minutes); the
constant `defaultTimeoutInMinutes` is not declared in the staged sources. -/
def defaultTimeoutInMinutes : Int := 60

/-- Modelled from the spec: the warning summary for a non-positive destroy
timeout; the constant `nonPositiveTimeoutSummary` is not declared in the
staged sources (a non-positive timeout is replaced by the default and
produces a user-visible warning). -/
def nonPositiveTimeoutSummary : String :=
  "Destroy timeout is not positive, using the default timeout"

/-- The observable outcome of one `Delete` call: the fatal diagnostics, the
warning diagnostics, and whether the local state record was removed. -/
structure DeleteOutcome where
  errors : List String := []
  warnings : List String := []
  stateRemoved : Bool := false
deriving DecidableEq, Repr

/-- `ClusterRosaClassicResource.Delete` (lines 822-878): issue the delete
call, then unless skip-wait is requested poll with 3 retry attempts; a poll
error is fatal and returns before the state removal; an exhausted poll
without the not-found status adds a warning; the state is removed at the
end of every non-error path. -/
def clusterRosaClassicDelete (state : ClusterRosaClassicState)
    (deleteErr : Option SdkError) (polls : Nat → Option SdkError) : DeleteOutcome :=
  match deleteErr with
  | some _ => { errors := ["Can't delete cluster"] }
  | none =>
    if state.DisableWaitingInDestroy.present && state.DisableWaitingInDestroy.Value then
      { stateRemoved := true }
    else
      let timeoutWarnings :=
        if state.DestroyTimeout.present && state.DestroyTimeout.Value ≤ 0 then
          [nonPositiveTimeoutSummary]
        else []
      let r := retryClusterNotFoundWithTimeout polls 0 3
      match r.2 with
      | some _ => { errors := ["Can't poll cluster state"], warnings := timeoutWarnings }
      | none =>
        if r.1 then { warnings := timeoutWarnings, stateRemoved := true }
        else
          { warnings := timeoutWarnings ++ ["Cluster wasn't deleted yet"],
            stateRemoved := true }

/-! ## Update request phase (lines 716-798)

The model covers `Update` from the decoded state and plan through the
decision to issue the patch call, which is what the update claims are about;
the state refresh after the call is `populateRosaClassicClusterState`. -/

/-- Modelled from the spec: `shouldPatchInt`, the minimal-diff test for an
integer attribute; the function is not declared in the staged sources.  Per
the spec, the patch carries the plan value exactly when the plan value is
present and the stored state does not already hold it. -/
def shouldPatchInt (state plan : TFInt) : Int × Bool :=
  if plan.Unknown || plan.Null then (0, false)
  else if state.Unknown || state.Null then (plan.Value, true)
  else if state.Value ≠ plan.Value then (plan.Value, true)
  else (0, false)

/-- The observable outcome of the update request phase: the fatal
diagnostics, whether the remote patch call was issued, and the patch body
it was issued with. -/
structure UpdateOutcome where
  errors : List String := []
  updateCalled : Bool := false
  patchBody : Option Cluster := none
deriving DecidableEq, Repr

/-- The request phase of `ClusterRosaClassicResource.Update` (lines
736-798): build the node patch from the replica diff; an enabled autoscaling
plan adds the autoscaling block; a disabled autoscaling plan with replica
bounds is rejected before any call; otherwise the update call is issued
unconditionally — also when the patch body is empty. -/
def clusterRosaClassicUpdateRequest (state plan : ClusterRosaClassicState) :
    UpdateOutcome :=
  let patch := shouldPatchInt state.Replicas plan.Replicas
  let clusterNodesBuilder : ClusterNodes :=
    if patch.2 then { compute := some patch.1 } else {}
  let updateNodes := patch.2
  if plan.AutoScalingEnabled.present && plan.AutoScalingEnabled.Value then
    let autoscaling : MachinePoolAutoscaling :=
      { maxReplicas := if plan.MaxReplicas.present then some plan.MaxReplicas.Value else none,
        minReplicas := if plan.MinReplicas.present then some plan.MinReplicas.Value else none }
    { updateCalled := true,
      patchBody := some { nodes := some { clusterNodesBuilder with autoscaleCompute := some autoscaling } } }
  else
    if plan.MaxReplicas.present || plan.MinReplicas.present then
      { errors := ["Can't update cluster"] }
    else
      { updateCalled := true,
        patchBody := some { nodes := if updateNodes then some clusterNodesBuilder else none } }

/-! ## Concrete inputs used by the witnesses and counterexamples -/

/-- A desired state whose tag map repeats a key. -/
def dupTagState : ClusterRosaClassicState :=
  { Tags := { Elems := [("owner", "alice"), ("owner", "bob")] } }

/-- A minimal desired state that sets only the KMS key (the version is
explicitly null so that the version gate is not consulted). -/
def kmsOnlyState (v : String) : ClusterRosaClassicState :=
  { KMSKeyArn := { Value := v }, Version := { Null := true } }

/-- A 32-hex-digit MRK-style key ARN. -/
def mrkKeyExample : String :=
  "arn:aws:kms:us-east-1:123456789012:key/mrk-0123456789abcdef0123456789abcdef"

/-- A canonical UUID key identifier. -/
def uuidKeyExample : String := "12345678-1234-4123-89ab-123456789012"

/-- A snapshot that carries only a proxy block. -/
def proxyOnlySnapshot : Cluster :=
  { proxy := some { httpProxy := some "http://proxy", httpsProxy := some "https://proxy" } }

/-- A snapshot that carries only an STS block. -/
def stsOnlySnapshot : Cluster :=
  { aws := some { sts := some { roleARN := some "role" } } }

/-- An HTTP client whose connection always fails (the resolver's soft
failure path). -/
def noNetworkClient : HttpClient := fun _ => none

/-- Stored state for the empty-patch update: two replicas. -/
def emptyPatchStoredState : ClusterRosaClassicState :=
  { Replicas := { Value := 2 } }

/-- Update plan for the empty-patch update: the same two replicas, autoscaling
and both bounds explicitly null — the computed patch is empty. -/
def emptyPatchPlan : ClusterRosaClassicState :=
  { Replicas := { Value := 2 }, AutoScalingEnabled := { Null := true },
    MinReplicas := { Null := true }, MaxReplicas := { Null := true } }

/-- Update plan with autoscaling explicitly null and a max-replicas bound. -/
def boundsNoAutoscalingPlan : ClusterRosaClassicState :=
  { AutoScalingEnabled := { Null := true }, MaxReplicas := { Value := 5 },
    MinReplicas := { Null := true } }

/-- Desired state with autoscaling explicitly null and a max-replicas bound
(the version is null so the version gate is not consulted). -/
def boundsNoAutoscalingState : ClusterRosaClassicState :=
  { AutoScalingEnabled := { Null := true }, MaxReplicas := { Value := 5 },
    Version := { Null := true } }

/-- Delete-claim state: waiting enabled (flag absent), destroy timeout
explicitly null (the default applies). -/
def deleteWaitState : ClusterRosaClassicState :=
  { DestroyTimeout := { Null := true } }

/-- An STS block whose BYO OIDC endpoint already carries the secure-scheme
marker. -/
def prefixedByoSts : Sts :=
  { OIDCEndpointURL := { Value := "https://example.com" },
    OIDCPrivateKeySecretArn := { Value := "arn:aws:secretsmanager:us-east-1:123456789012:secret:oidc" } }

/-- Desired state of the round-trip witness: a name, a region, a replica
count, and an explicitly null version. -/
def roundTripWitnessState : ClusterRosaClassicState :=
  { Name := { Value := "mycluster" }, CloudRegion := { Value := "us-east-1" },
    Replicas := { Value := 4 }, Version := { Null := true } }

/-- A self-signed CA certificate with a tiny raw encoding. -/
def caCertExample : X509Cert :=
  { isCA := true, rawIssuer := [10, 11], rawSubject := [10, 11], raw := [1, 2, 3] }

/-- A leaf certificate (issuer differs from subject). -/
def leafCertExample : X509Cert :=
  { isCA := false, rawIssuer := [10, 11], rawSubject := [20, 21], raw := [4, 5] }

/-- The amended round-trip relation between an original desired state and
the state record produced by inverse-mapping its forward-mapped payload:
every present field of the original equals the corresponding field of the
result.  Excluded, following the claim, are the server-only fields (id,
API/console URLs, lifecycle state, derived thumbprint); excluded further,
as the counterexample forces, are the customer-cloud-subscription flag
(the payload always forces it to true) and the autoscaling bounds when
autoscaling is not enabled in the original (the inverse mapper forces them
to null). -/
def RoundTripPreserves (st st2 : ClusterRosaClassicState) : Prop :=
  (st.ExternalID.present = true → st2.ExternalID = st.ExternalID) ∧
  (st.Name.present = true → st2.Name = st.Name) ∧
  (st.CloudRegion.present = true → st2.CloudRegion = st.CloudRegion) ∧
  (st.MultiAZ.present = true → st2.MultiAZ = st.MultiAZ) ∧
  (st.Properties.present = true → st2.Properties = st.Properties) ∧
  (st.EtcdEncryption.present = true → st2.EtcdEncryption = st.EtcdEncryption) ∧
  (st.DisableWorkloadMonitoring.present = true →
    st2.DisableWorkloadMonitoring = st.DisableWorkloadMonitoring) ∧
  (st.Replicas.present = true → st2.Replicas = st.Replicas) ∧
  (st.ComputeMachineType.present = true →
    st2.ComputeMachineType = st.ComputeMachineType) ∧
  (st.ComputeLabels.present = true → st2.ComputeLabels = st.ComputeLabels) ∧
  (st.AvailabilityZones.present = true →
    st2.AvailabilityZones = st.AvailabilityZones) ∧
  (st.AutoScalingEnabled.present = true →
    st2.AutoScalingEnabled = st.AutoScalingEnabled) ∧
  (st.AutoScalingEnabled.present = true → st.AutoScalingEnabled.Value = true →
    (st.MinReplicas.present = true → st2.MinReplicas = st.MinReplicas) ∧
    (st.MaxReplicas.present = true → st2.MaxReplicas = st.MaxReplicas)) ∧
  (st.DisableSCPChecks.present = true → st2.DisableSCPChecks = st.DisableSCPChecks) ∧
  (st.FIPS.present = true → st2.FIPS = st.FIPS) ∧
  st2.Tags = st.Tags ∧
  (st.KMSKeyArn.present = true → st2.KMSKeyArn = st.KMSKeyArn) ∧
  (st.AWSAccountID.present = true → st2.AWSAccountID = st.AWSAccountID) ∧
  (st.AWSPrivateLink.present = true → st2.AWSPrivateLink = st.AWSPrivateLink) ∧
  (st.AWSSubnetIDs.present = true → st2.AWSSubnetIDs = st.AWSSubnetIDs) ∧
  (st.MachineCIDR.present = true → st2.MachineCIDR = st.MachineCIDR) ∧
  (st.ServiceCIDR.present = true → st2.ServiceCIDR = st.ServiceCIDR) ∧
  (st.PodCIDR.present = true → st2.PodCIDR = st.PodCIDR) ∧
  (st.HostPrefix.present = true → st2.HostPrefix = st.HostPrefix) ∧
  (st.Version.present = true → st2.Version = st.Version) ∧
  st2.DisableWaitingInDestroy = st.DisableWaitingInDestroy ∧
  st2.DestroyTimeout = st.DestroyTimeout ∧
  (∀ sts0, st.Sts = some sts0 → ∃ sts2, st2.Sts = some sts2 ∧
    (sts0.RoleARN.present = true → sts2.RoleARN = sts0.RoleARN) ∧
    (sts0.SupportRoleArn.present = true → sts2.SupportRoleArn = sts0.SupportRoleArn) ∧
    (sts0.InstanceIAMRoles.MasterRoleARN.present = true →
      sts2.InstanceIAMRoles.MasterRoleARN = sts0.InstanceIAMRoles.MasterRoleARN) ∧
    (sts0.InstanceIAMRoles.WorkerRoleARN.present = true →
      sts2.InstanceIAMRoles.WorkerRoleARN = sts0.InstanceIAMRoles.WorkerRoleARN) ∧
    (sts0.OperatorRolePrefix.present = true →
      sts2.OperatorRolePrefix = sts0.OperatorRolePrefix) ∧
    (sts0.OIDCEndpointURL.present = true →
      sts2.OIDCEndpointURL = sts0.OIDCEndpointURL) ∧
    sts2.OIDCPrivateKeySecretArn = sts0.OIDCPrivateKeySecretArn) ∧
  (∀ p0, st.Proxy = some p0 → ∃ p2, st2.Proxy = some p2 ∧
    (p0.HttpProxy.present = true → p2.HttpProxy = p0.HttpProxy) ∧
    (p0.HttpsProxy.present = true → p2.HttpsProxy = p0.HttpsProxy) ∧
    p2.NoProxy = p0.NoProxy ∧
    (p0.AdditionalTrustBundle.present = true →
      p2.AdditionalTrustBundle = p0.AdditionalTrustBundle))

/-- Original desired state of the round-trip counterexample: the
customer-cloud-subscription flag present as false, and a min-replicas bound
present while autoscaling is explicitly null. -/
def roundTripCounterState : ClusterRosaClassicState :=
  { CCSEnabled := { Value := false }, MinReplicas := { Value := 2 },
    AutoScalingEnabled := { Null := true }, Version := { Null := true } }

/-! ## Helper lemmas -/

/-- A present tri-state string is its value with cleared flags. -/
theorem tfString_eta {x : TFString} (h : x.present = true) :
    ({ Value := x.Value } : TFString) = x := by
  cases x with
  | mk u n v =>
    simp only [TFString.present, Bool.and_eq_true, Bool.not_eq_true'] at h
    simp [h.1, h.2]

/-- A present tri-state boolean is its value with cleared flags. -/
theorem tfBool_eta {x : TFBool} (h : x.present = true) :
    ({ Value := x.Value } : TFBool) = x := by
  cases x with
  | mk u n v =>
    simp only [TFBool.present, Bool.and_eq_true, Bool.not_eq_true'] at h
    simp [h.1, h.2]

/-- A present tri-state integer is its value with cleared flags. -/
theorem tfInt_eta {x : TFInt} (h : x.present = true) :
    ({ Value := x.Value } : TFInt) = x := by
  cases x with
  | mk u n v =>
    simp only [TFInt.present, Bool.and_eq_true, Bool.not_eq_true'] at h
    simp [h.1, h.2]

/-- A present tri-state map is its entry list with cleared flags. -/
theorem tfMap_eta {x : TFMap} (h : x.present = true) :
    ({ Elems := x.Elems } : TFMap) = x := by
  cases x with
  | mk u n v =>
    simp only [TFMap.present, Bool.and_eq_true, Bool.not_eq_true'] at h
    simp [h.1, h.2]

/-- `https://` is a prefix of `https://` followed by anything. -/
theorem goHasPrefix_https_append (v : String) :
    goHasPrefix ("https://" ++ v) "https://" = true := by
  simp only [goHasPrefix, String.data_append]
  exact List.isPrefixOf_iff_prefix.mpr (List.prefix_append _ _)

/-- Stripping the `https://` prefix recovers what stood after it. -/
theorem goTrimPrefix_https_append (v : String) :
    goTrimPrefix ("https://" ++ v) "https://" = v := by
  have hpre : ("https://".data).isPrefixOf ("https://".data ++ v.data) = true :=
    List.isPrefixOf_iff_prefix.mpr (List.prefix_append _ _)
  simp only [goTrimPrefix, String.data_append, hpre, if_true, List.drop_left]

/-- An empty node-pool builder is the default value, so reading the possibly
omitted block back with a default yields the builder itself. -/
theorem ifEmpty_getD_nodes (n : ClusterNodes) :
    (if n.isEmpty then (none : Option ClusterNodes) else some n).getD {} = n := by
  by_cases h : n.isEmpty = true
  · rw [if_pos h]
    cases n with
    | mk a b c d e =>
      simp only [ClusterNodes.isEmpty, Bool.and_eq_true,
        Option.isNone_iff_eq_none] at h
      obtain ⟨⟨⟨⟨h1, h2⟩, h3⟩, h4⟩, h5⟩ := h
      subst h1; subst h2; subst h3; subst h4; subst h5
      rfl
  · rw [if_neg h]
    rfl

/-- An empty AWS builder is the default value, so reading the possibly
omitted block back with a default yields the builder itself. -/
theorem ifEmpty_getD_aws (a : AWSPayload) :
    (if a.isEmpty then (none : Option AWSPayload) else some a).getD {} = a := by
  by_cases h : a.isEmpty = true
  · rw [if_pos h]
    cases a with
    | mk t k c p s u =>
      simp only [AWSPayload.isEmpty, Bool.and_eq_true,
        Option.isNone_iff_eq_none] at h
      obtain ⟨⟨⟨⟨⟨h1, h2⟩, h3⟩, h4⟩, h5⟩, h6⟩ := h
      subst h1; subst h2; subst h3; subst h4; subst h5; subst h6
      rfl
  · rw [if_neg h]
    rfl

/-- An empty network builder is the default value, so reading the possibly
omitted block back with a default yields the builder itself. -/
theorem ifEmpty_getD_network (n : NetworkPayload) :
    (if n.isEmpty then (none : Option NetworkPayload) else some n).getD {} = n := by
  by_cases h : n.isEmpty = true
  · rw [if_pos h]
    cases n with
    | mk a b c d =>
      simp only [NetworkPayload.isEmpty, Bool.and_eq_true,
        Option.isNone_iff_eq_none] at h
      obtain ⟨⟨⟨h1, h2⟩, h3⟩, h4⟩ := h
      subst h1; subst h2; subst h3; subst h4
      rfl
  · rw [if_neg h]
    rfl

/-- The poll-error dispatch of `waitTillClusterIsNotFoundWithTimeout` for an
error that is not an OCM 404. -/
theorem waitTill_of_non404 (e : SdkError) (he : ∀ msg, e ≠ SdkError.ocmErr 404 msg) :
    waitTillClusterIsNotFoundWithTimeout (some e) = (false, some e) := by
  cases e with
  | ocmErr s m =>
    by_cases h : s = 404
    · subst h; exact absurd rfl (he m)
    · simp [waitTillClusterIsNotFoundWithTimeout, h]
  | ctxDeadlineExceeded => rfl
  | other m => rfl

/-! ## C7: the version gate -/

/-- C7: `checkSupportedVersion` with configured minimum "4.10" returns true
for "openshift-v4.10.0", false for "openshift-v4.9.0", and an error (not a
false result) for "not-a-version"; in general it strips the install prefix,
parses both sides as semantic versions and returns whether the requested
version is greater or equal under semantic-version ordering, with any parse
failure an error. -/
theorem checkSupportedVersion_spec :
    checkSupportedVersion "openshift-v4.10.0" = .ok true ∧
    checkSupportedVersion "openshift-v4.9.0" = .ok false ∧
    checkSupportedVersion "not-a-version" =
      .error "Malformed version: not-a-version" ∧
    (∀ s v m, semverNewVersion (goRemoveFirst s "openshift-v") = some v →
      semverNewVersion MinVersion = some m →
      checkSupportedVersion s = .ok (semverGE v m)) ∧
    (∀ s, semverNewVersion (goRemoveFirst s "openshift-v") = none →
      checkSupportedVersion s =
        .error ("Malformed version: " ++ goRemoveFirst s "openshift-v")) := by
  refine ⟨by rfl, by rfl, by rfl, ?_, ?_⟩
  · intro s v m h1 h2
    simp [checkSupportedVersion, h1, h2]
  · intro s h1
    simp [checkSupportedVersion, h1]

/-! ## C3: the update call is issued even for an empty patch -/

/-- C3: at an update whose computed patch is empty (replica count unchanged,
autoscaling and both bounds null in the plan), the request phase still
issues the remote update call, with an empty cluster payload as its body —
the call is not gated on the patch being non-empty. -/
theorem update_issues_call_on_empty_patch :
    clusterRosaClassicUpdateRequest emptyPatchStoredState emptyPatchPlan =
      { errors := [], updateCalled := true, patchBody := some ({} : Cluster) } := by
  rfl

/-! ## C4: a deletion-poll timeout is fatal and keeps the state record -/

/-- C4: when every poll attempt of a waiting Delete ends in an error that is
not an OCM 404 — in particular the context-deadline error the SDK poll
returns when the deadline expires before a not-found status — Delete surfaces
the fatal poll diagnostic and returns without removing the state record; no
warning is emitted (the timeout-warning branch needs a nil poll error, which
the deadline case never produces). -/
theorem delete_poll_deadline_is_fatal (e : SdkError)
    (he : ∀ msg, e ≠ SdkError.ocmErr 404 msg) :
    clusterRosaClassicDelete deleteWaitState none (fun _ => some e) =
      { errors := ["Can't poll cluster state"], warnings := [],
        stateRemoved := false } := by
  have hw := waitTill_of_non404 e he
  have hr : retryClusterNotFoundWithTimeout (fun _ => some e) 0 3 = (false, some e) := by
    simp [retryClusterNotFoundWithTimeout, hw]
  simp [clusterRosaClassicDelete, deleteWaitState, hr, TFBool.present, TFInt.present]

/-- Witness for C4: the context-deadline error at the concrete delete
state. -/
theorem delete_poll_deadline_is_fatal_witness :
    clusterRosaClassicDelete deleteWaitState none
      (fun _ => some SdkError.ctxDeadlineExceeded) =
      { errors := ["Can't poll cluster state"], warnings := [],
        stateRemoved := false } :=
  delete_poll_deadline_is_fatal SdkError.ctxDeadlineExceeded
    (fun _ h => SdkError.noConfusion h)

/-! ## C8: autoscaling bounds with autoscaling disabled -/

/-- C8 (amended): during Update, a plan whose autoscaling flag is not
present-and-true (unknown, null or false) while a min- or max-replicas bound
is present is rejected with the validation error before the update call is
issued.  (The forward translation of Create does not reject this
combination; see the counterexample.) -/
theorem update_rejects_bounds_without_autoscaling
    (state plan : ClusterRosaClassicState)
    (hA : ¬(plan.AutoScalingEnabled.present = true ∧
      plan.AutoScalingEnabled.Value = true))
    (hB : plan.MaxReplicas.present = true ∨ plan.MinReplicas.present = true) :
    clusterRosaClassicUpdateRequest state plan =
      { errors := ["Can't update cluster"], updateCalled := false,
        patchBody := none } := by
  have hA' : (plan.AutoScalingEnabled.present && plan.AutoScalingEnabled.Value) = false := by
    by_contra h
    rw [Bool.not_eq_false, Bool.and_eq_true] at h
    exact hA ⟨h.1, h.2⟩
  have hB' : (plan.MaxReplicas.present || plan.MinReplicas.present) = true := by
    rcases hB with h | h <;> simp [h]
  simp [clusterRosaClassicUpdateRequest, hA', hB']

/-- Witness for C8: the bounds-with-null-autoscaling plan is rejected. -/
theorem update_rejects_bounds_without_autoscaling_witness :
    clusterRosaClassicUpdateRequest emptyPatchStoredState boundsNoAutoscalingPlan =
      { errors := ["Can't update cluster"], updateCalled := false,
        patchBody := none } :=
  update_rejects_bounds_without_autoscaling emptyPatchStoredState
    boundsNoAutoscalingPlan (by simp [boundsNoAutoscalingPlan, TFBool.present])
    (by simp [boundsNoAutoscalingPlan, TFInt.present])

/-- Counterexample for C8: the same combination — autoscaling explicitly
null, max-replicas present — passes the forward translation of Create
without any validation error (the bounds are silently dropped from the
payload), so the rejection does not apply to every translation. -/
theorem create_accepts_bounds_without_autoscaling :
    (createClassicClusterObject boundsNoAutoscalingState).isOk = true := by
  rfl

/-! ## C2: totality of the inverse mapper -/

/-- Counterexample for C2: a snapshot carrying a proxy block, inverse-mapped
into a prior state whose proxy block is nil, dereferences the nil pointer
(lines 1116-1124) — the mapping crashes instead of completing, embedded as
`none`.  (The STS block, by contrast, is allocated on demand at line 1057.) -/
theorem populate_panics_on_proxy_without_prior_block :
    populateRosaClassicClusterState proxyOnlySnapshot {} noNetworkClient = none := by
  rfl

/-- C2 (amended): the inverse mapper never returns an error, and it
completes on every snapshot and prior state except the nil-pointer crash:
whenever the prior state has a proxy block allocated, or the snapshot
carries neither a proxy block nor a trust bundle, it completes — in
particular on a snapshot with an STS block and a prior state without one
(the STS block is allocated on demand). -/
theorem populateRosaClassicClusterState_total (object : Cluster)
    (state : ClusterRosaClassicState) (httpClient : HttpClient)
    (h : state.Proxy.isSome = true ∨
      (object.proxy = none ∧ object.additionalTrustBundle = none)) :
    (populateRosaClassicClusterState object state httpClient).isSome = true := by
  unfold populateRosaClassicClusterState
  rcases h with h | ⟨h1, h2⟩
  · rcases hs : state.Proxy with _ | p
    · rw [hs] at h; simp at h
    · simp [hs]
  · simp [h1, h2]

/-- Witness for C2: the STS-only snapshot inverse-mapped into the empty
prior state (no STS block, no proxy block) completes. -/
theorem populateRosaClassicClusterState_total_witness :
    (populateRosaClassicClusterState stsOnlySnapshot {} noNetworkClient).isSome = true :=
  populateRosaClassicClusterState_total stsOnlySnapshot {} noNetworkClient
    (Or.inr ⟨rfl, rfl⟩)

/-! ## C9: BYO OIDC endpoint normalization -/

/-- Counterexample for C9: an issuer endpoint already carrying the
`https://` prefix is not emitted unchanged — the forward mapper prepends the
marker unconditionally (line 617), producing a double-prefixed endpoint. -/
theorem byo_oidc_double_prefix :
    checkAndSetByoOidcAttributes prefixedByoSts {} =
      .ok { oidcEndpointURL := some "https://https://example.com",
            oidcPrivateKeySecretArn :=
              some "arn:aws:secretsmanager:us-east-1:123456789012:secret:oidc" } := by
  rfl

/-- C9 (amended): with BYO OIDC set and both fields present and non-empty,
the forward mapper always prepends `https://` to the issuer endpoint — also
when the input already carries the prefix, which is therefore
double-prefixed; the inverse mapper stores the endpoint with one leading
`https://` stripped, and stripping recovers exactly what stood after the
prepended marker. -/
theorem byo_oidc_normalization (sts : Sts) (b : STSPayload)
    (hset : isByoOidcSet sts = true)
    (hu : sts.OIDCEndpointURL.present = true)
    (hune : sts.OIDCEndpointURL.Value ≠ "")
    (ha : sts.OIDCPrivateKeySecretArn.present = true)
    (hane : sts.OIDCPrivateKeySecretArn.Value ≠ "") :
    checkAndSetByoOidcAttributes sts b =
      .ok { b with
            oidcEndpointURL := some ("https://" ++ sts.OIDCEndpointURL.Value),
            oidcPrivateKeySecretArn := some sts.OIDCPrivateKeySecretArn.Value } ∧
    (∀ (stsP : STSPayload) (prior : Sts) (client : HttpClient),
      (populateSts stsP prior client).OIDCEndpointURL.Value =
        goTrimPrefix (stsP.oidcEndpointURL.getD "") "https://") ∧
    (∀ v : String, goTrimPrefix ("https://" ++ v) "https://" = v) := by
  refine ⟨?_, ?_, ?_⟩
  · simp only [TFString.present, Bool.and_eq_true, Bool.not_eq_true'] at hu ha
    simp [checkAndSetByoOidcAttributes, hset, hu.1, hu.2, hune, ha.1, ha.2, hane]
  · intro stsP prior client
    by_cases h : goHasPrefix (stsP.oidcEndpointURL.getD "") "https://"
    · simp [populateSts, h]
    · have : goTrimPrefix (stsP.oidcEndpointURL.getD "") "https://" =
          stsP.oidcEndpointURL.getD "" := by
        simp only [goHasPrefix, Bool.not_eq_true] at h
        simp [goTrimPrefix, h]
      simp [populateSts, h, this]
  · intro v
    exact goTrimPrefix_https_append v

/-- Witness for C9: the amended normalization at the prefixed endpoint. -/
theorem byo_oidc_normalization_witness :
    checkAndSetByoOidcAttributes prefixedByoSts {} =
      .ok { oidcEndpointURL :=
              some ("https://" ++ prefixedByoSts.OIDCEndpointURL.Value),
            oidcPrivateKeySecretArn :=
              some prefixedByoSts.OIDCPrivateKeySecretArn.Value } ∧
    (∀ (stsP : STSPayload) (prior : Sts) (client : HttpClient),
      (populateSts stsP prior client).OIDCEndpointURL.Value =
        goTrimPrefix (stsP.oidcEndpointURL.getD "") "https://") ∧
    (∀ v : String, goTrimPrefix ("https://" ++ v) "https://" = v) :=
  byo_oidc_normalization prefixedByoSts {} rfl rfl (by decide) rfl (by decide)

/-! ## C10: trust anchor selection and the SHA-1 thumbprint -/

/-- Length of the hex encoding: two characters per byte. -/
theorem hexEncode_length (l : List Nat) : (hexEncode l).length = 2 * l.length := by
  simp only [hexEncode, String.length]
  induction l with
  | nil => rfl
  | cons b rest ih =>
    simp only [List.flatMap_cons, List.length_append, ih, List.length_cons,
      List.length_nil]
    omega

/-- The SHA-1 digest always has 20 bytes. -/
theorem sha1_length (msg : List Nat) : (sha1 msg).length = 20 := by
  simp [sha1, wordBytes]

set_option maxRecDepth 100000 in
/-- C10: the resolver hashes the first self-signed CA of the peer chain
(issuer equal to subject, CA flag set); with no such certificate it hashes
the last certificate of the chain; the result is the hex encoding of the
20-byte SHA-1 digest of the anchor's raw encoding (40 hex characters); and
on a chain of one self-signed CA and one leaf it returns the hash of the CA,
which differs from the hash of the leaf. -/
theorem getThumbprint_anchor :
    (∀ (chain : List X509Cert) (cert : X509Cert),
      chain.find? isSelfSignedCA = some cert →
      getThumbprintFromChain chain = .ok (sha1Hash cert.raw)) ∧
    (∀ (chain : List X509Cert) (cert : X509Cert),
      chain.find? isSelfSignedCA = none → chain.getLast? = some cert →
      getThumbprintFromChain chain = .ok (sha1Hash cert.raw)) ∧
    (∀ data : List Nat, (sha1 data).length = 20 ∧ (sha1Hash data).length = 40) ∧
    getThumbprintFromChain [caCertExample, leafCertExample] =
      .ok (sha1Hash caCertExample.raw) ∧
    sha1Hash caCertExample.raw ≠ sha1Hash leafCertExample.raw := by
  refine ⟨?_, ?_, ?_, ?_, ?_⟩
  · intro chain cert h
    simp [getThumbprintFromChain, h]
  · intro chain cert h1 h2
    simp [getThumbprintFromChain, h1, h2]
  · intro data
    refine ⟨sha1_length data, ?_⟩
    rw [sha1Hash, hexEncode_length, sha1_length]
  · have h : [caCertExample, leafCertExample].find? isSelfSignedCA =
        some caCertExample := by rfl
    simp [getThumbprintFromChain, h]
  · decide

/-! ## C5: duplicate tag keys -/

/-- The tag-copy loop fails on a duplicated key: if the keys of the
accumulator (themselves distinct) and of the remaining entries are not
distinct as a whole, the loop errors out naming a key that occurs at least
twice. -/
theorem buildTags_duplicate (l acc : List (String × String))
    (hacc : (acc.map Prod.fst).Nodup)
    (hdup : ¬(acc.map Prod.fst ++ l.map Prod.fst).Nodup) :
    ∃ k, 2 ≤ (acc.map Prod.fst ++ l.map Prod.fst).count k ∧
      buildTags acc l = .error (errHeadline ++ "\n" ++ dupTagErrDescription k) := by
  induction l generalizing acc with
  | nil =>
    exfalso
    apply hdup
    simpa using hacc
  | cons p rest ih =>
    obtain ⟨k, v⟩ := p
    by_cases hc : (acc.map Prod.fst).contains k = true
    · have herr : buildTags acc ((k, v) :: rest) =
          .error (errHeadline ++ "\n" ++ dupTagErrDescription k) := by
        simp only [buildTags]
        rw [if_pos hc]
      refine ⟨k, ?_, herr⟩
      have hmem : k ∈ acc.map Prod.fst := by simpa using hc
      have h1 : 1 ≤ (acc.map Prod.fst).count k := List.one_le_count_iff.mpr hmem
      have h2 : (k :: rest.map Prod.fst).count k = (rest.map Prod.fst).count k + 1 :=
        List.count_cons_self k _
      simp only [List.map_cons, List.count_append, h2]
      omega
    · have hnotmem : k ∉ acc.map Prod.fst := by simpa using hc
      have hacc' : ((acc ++ [(k, v)]).map Prod.fst).Nodup := by
        rw [List.map_append, List.map_cons, List.map_nil]
        refine List.Nodup.append hacc (List.nodup_singleton _) ?_
        simpa [List.disjoint_singleton] using hnotmem
      have hperm : (acc ++ [(k, v)]).map Prod.fst ++ rest.map Prod.fst =
          acc.map Prod.fst ++ ((k, v) :: rest).map Prod.fst := by
        simp
      have hdup' : ¬(((acc ++ [(k, v)]).map Prod.fst) ++ rest.map Prod.fst).Nodup := by
        rw [hperm]; exact hdup
      obtain ⟨k2, hcount, herr⟩ := ih (acc ++ [(k, v)]) hacc' hdup'
      have hstep : buildTags acc ((k, v) :: rest) = buildTags (acc ++ [(k, v)]) rest := by
        simp only [buildTags]
        rw [if_neg hc]
      refine ⟨k2, ?_, by rw [hstep]; exact herr⟩
      rw [hperm] at hcount
      exact hcount

/-- C5: a desired state whose tag map repeats a key fails forward
translation with the validation error naming a key that occurs at least
twice, and no payload is produced. -/
theorem createClassicClusterObject_duplicate_tag (state : ClusterRosaClassicState)
    (hp : state.Tags.present = true)
    (hdup : ¬(state.Tags.Elems.map Prod.fst).Nodup) :
    ∃ k, 2 ≤ (state.Tags.Elems.map Prod.fst).count k ∧
      createClassicClusterObject state =
        .error (errHeadline ++ "\n" ++ dupTagErrDescription k) := by
  obtain ⟨k, hcount, herr⟩ :=
    buildTags_duplicate state.Tags.Elems [] (by simp) (by simpa using hdup)
  refine ⟨k, by simpa using hcount, ?_⟩
  simp [createClassicClusterObject, checkTags, hp, herr]

/-- Witness for C5: the concrete state with a repeated tag key. -/
theorem createClassicClusterObject_duplicate_tag_witness :
    ∃ k, 2 ≤ (dupTagState.Tags.Elems.map Prod.fst).count k ∧
      createClassicClusterObject dupTagState =
        .error (errHeadline ++ "\n" ++ dupTagErrDescription k) :=
  createClassicClusterObject_duplicate_tag dupTagState (by rfl) (by decide)

/-! ## C6: the KMS key identifier pattern -/

/-- C6: a present, non-empty KMS key identifier that does not match
`kmsArnRE` fails forward translation with the error that prints the pattern
(whenever the tag check before it passes); a matching identifier never
fails the key check, and at the minimal state that sets only the key,
translation succeeds with the payload carrying the identifier; both the
32-hex-digit MRK-style key ARN and the canonical UUID match the pattern. -/
theorem createClassicClusterObject_kms :
    (∀ state : ClusterRosaClassicState, (checkTags state).isOk = true →
      state.KMSKeyArn.present = true → state.KMSKeyArn.Value ≠ "" →
      kmsArnREMatch state.KMSKeyArn.Value = false →
      createClassicClusterObject state =
        .error (errHeadline ++ "\n" ++ kmsErrDescription)) ∧
    (∀ state : ClusterRosaClassicState,
      kmsArnREMatch state.KMSKeyArn.Value = true → (checkKms state).isOk = true) ∧
    (∀ v : String, kmsArnREMatch v = true → v ≠ "" →
      ∃ c a, createClassicClusterObject (kmsOnlyState v) = .ok c ∧
        c.aws = some a ∧ a.kmsKeyArn = some v) ∧
    kmsArnREMatch mrkKeyExample = true ∧ kmsArnREMatch uuidKeyExample = true := by
  refine ⟨?_, ?_, ?_, by rfl, by rfl⟩
  · intro state ht hp hne hm
    rcases hts : checkTags state with e | t
    · rw [hts] at ht; simp [Except.isOk, Except.toBool] at ht
    · simp [createClassicClusterObject, hts, checkKms, hp, hne, hm]
  · intro state hm
    unfold checkKms
    simp only [ne_eq, hm, if_true]
    split <;> rfl
  · intro v hm hne
    refine ⟨assembleCluster (kmsOnlyState v) (some []) (some v) none none,
      mkAWS (kmsOnlyState v) (some []) (some v) none, ?_, ?_, rfl⟩
    · simp [createClassicClusterObject, checkTags, checkKms, mkStsPayload,
        checkVersion, kmsOnlyState, buildTags, hm, hne, TFMap.present,
        TFString.present]
    · simp [assembleCluster, mkAWS, AWSPayload.isEmpty]

/-! ## C1: the round trip -/

/-- Counterexample for C1: at a desired state whose
customer-cloud-subscription flag is present (false) and whose min-replicas
bound is present while autoscaling is null, the forward mapping succeeds and
the inverse mapping completes, yet both fields of the resulting record
differ from the original: the payload forces the subscription flag to true,
and the inverse mapper forces the unused bound to null.  Neither field is a
server-only field of the claim's exception list. -/
theorem roundTrip_fails_at_counterexample :
    ∃ c state2, createClassicClusterObject roundTripCounterState = .ok c ∧
      populateRosaClassicClusterState c roundTripCounterState noNetworkClient =
        some state2 ∧
      roundTripCounterState.CCSEnabled.present = true ∧
      state2.CCSEnabled ≠ roundTripCounterState.CCSEnabled ∧
      roundTripCounterState.MinReplicas.present = true ∧
      state2.MinReplicas ≠ roundTripCounterState.MinReplicas := by
  refine ⟨_, _, rfl, rfl, rfl, by decide, rfl, by decide⟩

/-- C1 (amended): for every desired state whose forward mapping succeeds,
inverse-mapping the resulting payload back over the original state leaves
every present field of the original equal in the result, except the
server-only fields (id, API/console URLs, lifecycle state, thumbprint), the
customer-cloud-subscription flag, and the autoscaling bounds when
autoscaling is not enabled in the original (see `RoundTripPreserves`). -/
theorem createClassicClusterObject_roundTrip (state : ClusterRosaClassicState)
    (client : HttpClient) (c : Cluster) (state2 : ClusterRosaClassicState)
    (h : createClassicClusterObject state = .ok c)
    (h2 : populateRosaClassicClusterState c state client = some state2) :
    RoundTripPreserves state state2 := by
  unfold createClassicClusterObject at h
  rcases ht : checkTags state with e | tagsOpt <;> rw [ht] at h
  · simp at h
  rcases hk : checkKms state with e | kmsOpt <;> rw [hk] at h
  · simp at h
  rcases hsts : mkStsPayload state with e | stsOpt <;> rw [hsts] at h
  · simp at h
  rcases hv : checkVersion state with e | versionOpt <;> rw [hv] at h
  · simp at h
  simp only [Except.ok.injEq] at h
  subst h
  have hguard : (((assembleCluster state tagsOpt kmsOpt stsOpt versionOpt).proxy.isSome ||
      (assembleCluster state tagsOpt kmsOpt stsOpt versionOpt).additionalTrustBundle.isSome) &&
      state.Proxy.isNone) = false := by
    rcases hp : state.Proxy with _ | p
    · simp [assembleCluster, hp]
    · simp [hp]
  unfold populateRosaClassicClusterState at h2
  rw [hguard] at h2
  simp only [Bool.false_eq_true, if_false, Option.some.injEq] at h2
  subst h2
  refine ⟨?_, ?_, ?_, ?_, ?_, ?_, ?_, ?_, ?_, ?_, ?_, ?_, ?_, ?_, ?_, ?_, ?_, ?_,
    ?_, ?_, ?_, ?_, ?_, ?_, ?_, ?_, ?_, ?_, ?_⟩
  · -- ExternalID
    intro hp
    simp [assembleCluster, hp, tfString_eta hp]
  · -- Name
    intro hp
    simp [assembleCluster, tfString_eta hp]
  · -- CloudRegion
    intro hp
    simp [assembleCluster, tfString_eta hp]
  · -- MultiAZ
    intro hp
    simp [assembleCluster, hp, tfBool_eta hp]
  · -- Properties
    intro hp
    simp [assembleCluster, hp, tfMap_eta hp]
  · -- EtcdEncryption
    intro hp
    simp [assembleCluster, hp, tfBool_eta hp]
  · -- DisableWorkloadMonitoring
    intro hp
    by_cases hval : state.DisableWorkloadMonitoring.Value = true
    · have heta : ({ Value := true } : TFBool) = state.DisableWorkloadMonitoring :=
        hval ▸ tfBool_eta hp
      simp [assembleCluster, hp, hval, heta]
    · simp [assembleCluster, hp, hval]
  · -- Replicas
    intro hp
    have hcomp : (mkNodes state).compute = some state.Replicas.Value := by
      simp [mkNodes, hp]
    simp [assembleCluster, ifEmpty_getD_nodes, hcomp, tfInt_eta hp]
  · -- ComputeMachineType
    intro hp
    have hcmt : (mkNodes state).computeMachineType =
        some state.ComputeMachineType.Value := by
      simp [mkNodes, hp]
    simp [assembleCluster, ifEmpty_getD_nodes, hcmt, tfString_eta hp]
  · -- ComputeLabels
    intro hp
    have hcl : (mkNodes state).computeLabels = some state.ComputeLabels.Elems := by
      simp [mkNodes, hp]
    simp [assembleCluster, ifEmpty_getD_nodes, hcl, tfMap_eta hp]
  · -- AvailabilityZones
    intro hp
    have haz : (mkNodes state).availabilityZones =
        some state.AvailabilityZones.Elems := by
      simp [mkNodes, hp]
    simp [assembleCluster, ifEmpty_getD_nodes, haz]
  · -- AutoScalingEnabled
    intro hp
    by_cases hval : state.AutoScalingEnabled.Value = true
    · rcases hM : (mkNodes state).autoscaleCompute with _ | a
      · simp [assembleCluster, ifEmpty_getD_nodes, hM]
      · have heta : ({ Value := true } : TFBool) = state.AutoScalingEnabled :=
          hval ▸ tfBool_eta hp
        simp [assembleCluster, ifEmpty_getD_nodes, hM, heta]
    · have hM : (mkNodes state).autoscaleCompute = none := by
        simp [mkNodes, hval]
      simp [assembleCluster, ifEmpty_getD_nodes, hM]
  · -- Min/Max replicas under enabled autoscaling
    intro hp hval
    constructor
    · intro hmin
      by_cases hmax : state.MaxReplicas.present = true
      · have hM : (mkNodes state).autoscaleCompute = some
            { maxReplicas := some state.MaxReplicas.Value,
              minReplicas := some state.MinReplicas.Value } := by
          simp [mkNodes, hp, hval, hmin, hmax, MachinePoolAutoscaling.isEmpty]
        simp [assembleCluster, ifEmpty_getD_nodes, hM, tfInt_eta hmin]
      · have hM : (mkNodes state).autoscaleCompute = some
            { maxReplicas := none, minReplicas := some state.MinReplicas.Value } := by
          simp [mkNodes, hp, hval, hmin, hmax, MachinePoolAutoscaling.isEmpty]
        simp [assembleCluster, ifEmpty_getD_nodes, hM, tfInt_eta hmin]
    · intro hmax
      by_cases hmin : state.MinReplicas.present = true
      · have hM : (mkNodes state).autoscaleCompute = some
            { maxReplicas := some state.MaxReplicas.Value,
              minReplicas := some state.MinReplicas.Value } := by
          simp [mkNodes, hp, hval, hmin, hmax, MachinePoolAutoscaling.isEmpty]
        simp [assembleCluster, ifEmpty_getD_nodes, hM, tfInt_eta hmax]
      · have hM : (mkNodes state).autoscaleCompute = some
            { maxReplicas := some state.MaxReplicas.Value, minReplicas := none } := by
          simp [mkNodes, hp, hval, hmin, hmax, MachinePoolAutoscaling.isEmpty]
        simp [assembleCluster, ifEmpty_getD_nodes, hM, tfInt_eta hmax]
  · -- DisableSCPChecks
    intro hp
    by_cases hval : state.DisableSCPChecks.Value = true
    · have heta : ({ Value := true } : TFBool) = state.DisableSCPChecks :=
        hval ▸ tfBool_eta hp
      simp [assembleCluster, mkCCS, hp, hval, heta]
    · simp [assembleCluster, mkCCS, hp, hval]
  · -- FIPS
    intro hp
    by_cases hval : state.FIPS.Value = true
    · have heta : ({ Value := true } : TFBool) = state.FIPS := hval ▸ tfBool_eta hp
      simp [assembleCluster, hp, hval, heta]
    · simp [assembleCluster, hp, hval]
  · -- Tags
    rfl
  · -- KMSKeyArn
    intro hp
    by_cases hve : state.KMSKeyArn.Value = ""
    · unfold checkKms at hk
      simp [hp, hve] at hk
      subst hk
      simp [assembleCluster, ifEmpty_getD_aws, mkAWS]
    · unfold checkKms at hk
      simp [hp, hve] at hk
      by_cases hm : kmsArnREMatch state.KMSKeyArn.Value = true
      · rw [if_pos hm] at hk
        simp only [Except.ok.injEq] at hk
        subst hk
        simp [assembleCluster, ifEmpty_getD_aws, mkAWS, tfString_eta hp]
      · rw [if_neg hm] at hk
        simp at hk
  · -- AWSAccountID
    intro hp
    have hacc : (mkAWS state tagsOpt kmsOpt stsOpt).accountID =
        some state.AWSAccountID.Value := by
      simp [mkAWS, hp]
    simp [assembleCluster, ifEmpty_getD_aws, hacc, tfString_eta hp]
  · -- AWSPrivateLink
    intro hp
    have hpl : (mkAWS state tagsOpt kmsOpt stsOpt).privateLink =
        some state.AWSPrivateLink.Value := by
      simp [mkAWS, hp]
    simp [assembleCluster, ifEmpty_getD_aws, hpl, tfBool_eta hp]
  · -- AWSSubnetIDs
    intro hp
    have hsub : (mkAWS state tagsOpt kmsOpt stsOpt).subnetIDs =
        some state.AWSSubnetIDs.Elems := by
      simp [mkAWS, hp]
    simp [assembleCluster, ifEmpty_getD_aws, hsub]
  · -- MachineCIDR
    intro hp
    have hx : (mkNetwork state).machineCIDR = some state.MachineCIDR.Value := by
      simp [mkNetwork, hp]
    simp [assembleCluster, ifEmpty_getD_network, hx, tfString_eta hp]
  · -- ServiceCIDR
    intro hp
    have hx : (mkNetwork state).serviceCIDR = some state.ServiceCIDR.Value := by
      simp [mkNetwork, hp]
    simp [assembleCluster, ifEmpty_getD_network, hx, tfString_eta hp]
  · -- PodCIDR
    intro hp
    have hx : (mkNetwork state).podCIDR = some state.PodCIDR.Value := by
      simp [mkNetwork, hp]
    simp [assembleCluster, ifEmpty_getD_network, hx, tfString_eta hp]
  · -- HostPrefix
    intro hp
    have hx : (mkNetwork state).hostPrefix = some state.HostPrefix.Value := by
      simp [mkNetwork, hp]
    simp [assembleCluster, ifEmpty_getD_network, hx, tfInt_eta hp]
  · -- Version
    intro hp
    unfold checkVersion at hv
    simp only [hp, if_true] at hv
    rcases hcsv : checkSupportedVersion state.Version.Value with e | b <;>
      rw [hcsv] at hv
    · simp at hv
    · rcases b with _ | _
      · simp at hv
      · simp only [Except.ok.injEq] at hv
        subst hv
        simp [assembleCluster, tfString_eta hp]
  · -- DisableWaitingInDestroy
    rfl
  · -- DestroyTimeout
    rfl
  · -- Sts block
    intro sts0 hs0
    unfold mkStsPayload at hsts
    rw [hs0] at hsts
    dsimp only [] at hsts
    rcases hbyo : checkAndSetByoOidcAttributes sts0
        { roleARN := some sts0.RoleARN.Value,
          supportRoleARN := some sts0.SupportRoleArn.Value,
          instanceIAMRoles := some
            { masterRoleARN := some sts0.InstanceIAMRoles.MasterRoleARN.Value,
              workerRoleARN := some sts0.InstanceIAMRoles.WorkerRoleARN.Value } }
        with e | wb <;> rw [hbyo] at hsts
    · simp at hsts
    simp only [Except.ok.injEq] at hsts
    subst hsts
    by_cases hbset : isByoOidcSet sts0 = true
    · -- BYO OIDC set: both checks must have passed
      simp only [checkAndSetByoOidcAttributes, hbset, if_true] at hbyo
      split at hbyo
      · exact absurd hbyo (by simp)
      split at hbyo
      · exact absurd hbyo (by simp)
      simp only [Except.ok.injEq] at hbyo
      subst hbyo
      refine ⟨_, by simp only [assembleCluster, ifEmpty_getD_aws, mkAWS, hs0,
        Option.getD_some]; exact rfl, ?_, ?_, ?_, ?_, ?_, ?_, ?_⟩
      · intro hr
        simp [populateSts, tfString_eta hr]
      · intro hr
        simp [populateSts, tfString_eta hr]
      · intro hr
        simp [populateSts, tfString_eta hr]
      · intro hr
        simp [populateSts, tfString_eta hr]
      · intro hr
        have hu : sts0.OperatorRolePrefix.Unknown = false ∧
            sts0.OperatorRolePrefix.Null = false := by
          simpa [TFString.present, Bool.and_eq_true, Bool.not_eq_true'] using hr
        simp [populateSts, hu.1, hu.2]
      · intro hr
        simp [populateSts, goHasPrefix_https_append, goTrimPrefix_https_append,
          tfString_eta hr]
      · simp [populateSts]
    · -- BYO OIDC not set: the base payload goes through unchanged
      simp only [checkAndSetByoOidcAttributes, if_neg hbset] at hbyo
      simp only [Except.ok.injEq] at hbyo
      subst hbyo
      refine ⟨_, by simp only [assembleCluster, ifEmpty_getD_aws, mkAWS, hs0,
        Option.getD_some]; exact rfl, ?_, ?_, ?_, ?_, ?_, ?_, ?_⟩
      · intro hr
        simp [populateSts, tfString_eta hr]
      · intro hr
        simp [populateSts, tfString_eta hr]
      · intro hr
        simp [populateSts, tfString_eta hr]
      · intro hr
        simp [populateSts, tfString_eta hr]
      · intro hr
        have hu : sts0.OperatorRolePrefix.Unknown = false ∧
            sts0.OperatorRolePrefix.Null = false := by
          simpa [TFString.present, Bool.and_eq_true, Bool.not_eq_true'] using hr
        simp [populateSts, hu.1, hu.2]
      · intro hr
        have hval : sts0.OIDCEndpointURL.Value = "" := by
          by_contra hne
          exact hbset (by simp [isByoOidcSet, hr, hne])
        have hnopre : goHasPrefix "" "https://" = false := by decide
        have heta : ({ Value := "" } : TFString) = sts0.OIDCEndpointURL :=
          hval ▸ tfString_eta hr
        simp [populateSts, hnopre, heta]
      · simp [populateSts]
  · -- Proxy block
    intro p0 hp0
    refine ⟨_, by simp only [hp0]; exact rfl, ?_, ?_, ?_, ?_⟩
    · intro hx
      simp [assembleCluster, hp0, tfString_eta hx]
    · intro hx
      simp [assembleCluster, hp0, tfString_eta hx]
    · simp [hp0]
    · intro hx
      simp [assembleCluster, hp0, hx, tfString_eta hx]

/-- Witness for C1: the round trip at the concrete witness state. -/
theorem createClassicClusterObject_roundTrip_witness :
    RoundTripPreserves roundTripWitnessState
      ((populateRosaClassicClusterState
        ((createClassicClusterObject roundTripWitnessState).toOption.getD {})
        roundTripWitnessState noNetworkClient).getD {}) :=
  createClassicClusterObject_roundTrip roundTripWitnessState noNetworkClient
    ((createClassicClusterObject roundTripWitnessState).toOption.getD {})
    ((populateRosaClassicClusterState
        ((createClassicClusterObject roundTripWitnessState).toOption.getD {})
        roundTripWitnessState noNetworkClient).getD {})
    (by rfl) (by rfl)
